import Mathlib

/-!
Verification development for an access-controlled forwarding proxy.

The program is a request proxy in front of a chat-completion API.  The
shallow embedding below translates its two core modules:
  * the Redis access layer (key records, auto-migration, daily usage
    accounting, settings persistence), and
  * the proxy request handler (message classification, quota stage,
    model validation and rewriting, system prompt injection, upstream
    URL construction, response text rewriting).

JavaScript strings are modelled by Lean `String`; the JavaScript string
operations used by the program (startsWith, endsWith, slice, replace,
includes, trim, substring, length) are given explicit executable
definitions over the underlying character lists, mirroring the
JavaScript semantics (replace with a plain string pattern rewrites the
first occurrence; a regex with the g flag rewrites occurrences left to
right without overlap).  JavaScript numbers holding counts and limits
are modelled by `Nat`.  Absent object fields are modelled by `Option`.
The Redis store, as seen by a single key, is modelled by
`Option KeyData`: the stored record for that key, if any.  Functions
that read and write the store take the current store value and return
the updated one, making persistence explicit.
-/

/-- JavaScript s.startsWith(pre). -/
def jsStartsWith (s pre : String) : Bool :=
  pre.data.isPrefixOf s.data

/-- JavaScript s.endsWith(suf). -/
def jsEndsWith (s suf : String) : Bool :=
  suf.data.isSuffixOf s.data

/-- JavaScript s.slice(0, -1): drop the last character. -/
def jsDropLast (s : String) : String :=
  ⟨s.data.dropLast⟩

/-- JavaScript s.length (character count). -/
def jsLength (s : String) : Nat :=
  s.data.length

/-- JavaScript s.substring(0, n): first n characters. -/
def jsSubstringTo (s : String) (n : Nat) : String :=
  ⟨s.data.take n⟩

/-- Trim whitespace from both ends of a character list. -/
def jsTrimL (l : List Char) : List Char :=
  ((l.dropWhile Char.isWhitespace).reverse.dropWhile Char.isWhitespace).reverse

/-- JavaScript s.trim(). -/
def jsTrim (s : String) : String :=
  ⟨jsTrimL s.data⟩

/-- JavaScript s.replace(pat, repl) with a plain string pattern:
rewrite only the first occurrence of pat, scanning left to right. -/
def jsReplaceFirstL (pat repl : List Char) : List Char → List Char
  | [] => []
  | c :: cs =>
    if pat.isPrefixOf (c :: cs) then repl ++ (c :: cs).drop pat.length
    else c :: jsReplaceFirstL pat repl cs

/-- JavaScript s.replace(pat, repl), first occurrence only. -/
def jsReplaceFirst (s pat repl : String) : String :=
  ⟨jsReplaceFirstL pat.data repl.data s.data⟩

/-- JavaScript s.replace(/pat/g, repl) for a literal pattern: rewrite
every occurrence, scanning left to right without overlap, continuing
after each replacement. -/
def jsReplaceAllL (pat repl : List Char) : List Char → List Char
  | [] => []
  | c :: cs =>
    if h : pat ≠ [] ∧ pat.isPrefixOf (c :: cs) then
      repl ++ jsReplaceAllL pat repl ((c :: cs).drop pat.length)
    else
      c :: jsReplaceAllL pat repl cs
termination_by l => l.length
decreasing_by
  · simp only [List.length_drop]
    have hp : 0 < pat.length := List.length_pos.mpr h.1
    simp only [List.length_cons]
    omega
  · simp

/-- JavaScript s.replace(/pat/g, repl) for a literal pattern. -/
def jsReplaceAll (s pat repl : String) : String :=
  ⟨jsReplaceAllL pat.data repl.data s.data⟩

/-- Substring containment over character lists. -/
def containsSubL (pat : List Char) : List Char → Bool
  | [] => pat.isPrefixOf []
  | c :: cs => pat.isPrefixOf (c :: cs) || containsSubL pat cs

/-- JavaScript s.includes(pat). -/
def containsSub (s pat : String) : Bool :=
  containsSubL pat.data s.data

/-- JavaScript truthiness-based defaulting a || b where a is an
optional string: an absent or empty string falls through to b. -/
def jsOr (a : Option String) (b : String) : String :=
  match a with
  | some s => if s = "" then b else s
  | none => b

/-- usage_today subrecord of an access key record: date (calendar day
string) and count of countable requests used on that day. -/
structure Usage where
  date : String
  count : Nat
deriving DecidableEq, Repr

/-- A stored access key record, as dynamic JSON data: the current
schema has daily_limit and usage_today present; legacy schemas may
instead carry max_concurrent_users, max_activations or max_ips.
Absent fields are none. -/
structure KeyData where
  expiry : String
  daily_limit : Option Nat
  usage_today : Option Usage
  session_timeout_minutes : Option Nat
  max_concurrent_users : Option Nat
  max_activations : Option Nat
  max_ips : Option Nat
  selected_model : Option String
  selected_api_profile_id : Option String
deriving DecidableEq, Repr

/-- getKeyData from the Redis layer: fetch the record, and
  * if it already has both daily_limit and usage_today, reset
    usage_today to (today, 0) and persist when the stored date is not
    today, otherwise return it unchanged;
  * otherwise migrate from any legacy schema: infer daily_limit as 50
    times the first present field among max_concurrent_users,
    max_activations, max_ips, defaulting to 100; set usage_today to
    (today, 0) and session_timeout_minutes to 15; preserve expiry;
    persist the migrated record.
Returns the record handed to the caller and the store after the call. -/
def getKeyData (today : String) (store : Option KeyData) :
    Option KeyData × Option KeyData :=
  match store with
  | none => (none, none)
  | some d =>
    match d.daily_limit, d.usage_today with
    | some _, some u =>
      if u.date ≠ today then
        let d' := { d with usage_today := some ⟨today, 0⟩ }
        (some d', some d')
      else
        (some d, some d)
    | _, _ =>
      let dailyLimit :=
        match d.max_concurrent_users with
        | some n => n * 50
        | none =>
          match d.max_activations with
          | some n => n * 50
          | none =>
            match d.max_ips with
            | some n => n * 50
            | none => 100
      let newData : KeyData :=
        { expiry := d.expiry
          daily_limit := some dailyLimit
          usage_today := some ⟨today, 0⟩
          session_timeout_minutes := some 15
          max_concurrent_users := none
          max_activations := none
          max_ips := none
          selected_model := none
          selected_api_profile_id := none }
      (some newData, some newData)

/-- Result record of incrementUsage. -/
structure IncResult where
  allowed : Bool
  currentUsage : Nat
  limit : Nat
  reason : Option String
deriving DecidableEq, Repr

/-- incrementUsage from the Redis layer: re-fetch the record through
getKeyData, fail closed when the key is absent, reject without writing
when count has reached daily_limit, otherwise increment count by one
and persist the full record.  A record that still lacked the fields
after getKeyData would make the JavaScript throw and land in the catch
branch, which returns the server_error result; that branch is
represented by the final case. -/
def incrementUsage (today : String) (store : Option KeyData) :
    IncResult × Option KeyData :=
  match getKeyData today store with
  | (dataOpt, st1) =>
    match dataOpt with
    | none => (⟨false, 0, 0, some "invalid_key"⟩, st1)
    | some d =>
      match d.daily_limit, d.usage_today with
      | some lim, some u =>
        if u.count ≥ lim then
          (⟨false, u.count, lim, some "daily_limit_reached"⟩, st1)
        else
          (⟨true, u.count + 1, lim, none⟩,
            some { d with usage_today := some ⟨u.date, u.count + 1⟩ })
      | _, _ => (⟨false, 0, 0, some "server_error"⟩, st1)

/-- Quota rejection payload surfaced by the handler: HTTP status and
the current_usage and daily_limit fields of the response body. -/
structure QuotaReject where
  status : Nat
  current_usage : Nat
  daily_limit : Nat
deriving DecidableEq, Repr

/-- The daily limit stage of the proxy handler: when the request is
countable, run incrementUsage and turn a disallowed result into a 429
response carrying current_usage and daily_limit; when not countable,
leave the store untouched and proceed. -/
def quotaStage (today : String) (countable : Bool) (store : Option KeyData) :
    Option QuotaReject × Option KeyData :=
  if countable then
    match incrementUsage today store with
    | (r, st) =>
      if r.allowed then (none, st)
      else (some ⟨429, r.currentUsage, r.limit⟩, st)
  else
    (none, store)

/-- A content block inside a structured message content value; the
classification only inspects its type field, which may be absent. -/
structure Block where
  type : Option String
deriving DecidableEq, Repr

/-- The content value of a chat message as dynamic JSON: a plain
string, an array of content blocks, a single non-array object
(inspected through its optional type field), or null. -/
inductive Content where
  | str (s : String)
  | blocks (bs : List Block)
  | obj (type : Option String)
  | nullv
deriving DecidableEq, Repr

/-- A chat message: role and content. -/
structure Msg where
  role : String
  content : Content
deriving DecidableEq, Repr

/-- The parsed JSON request body, restricted to the fields the proxy
handler reads or writes: model, messages, system, stream. -/
structure RequestBody where
  model : String
  messages : Option (List Msg)
  system : Option String
  stream : Bool
deriving DecidableEq, Repr

/-- The message classification of the daily limit stage: the request
counts toward quota only when the messages field is an array whose
last entry has role user and whose content is not a tool result:
string content counts; array content counts unless some block has
type tool_result; any other content value counts unless its own type
field is tool_result (null content therefore counts, since reading
the type field of null through optional chaining yields undefined). -/
def hasNewUserMessage (body : RequestBody) : Bool :=
  match body.messages with
  | some msgs =>
    match msgs.getLast? with
    | some lastMessage =>
      if lastMessage.role = "user" then
        match lastMessage.content with
        | .str _ => true
        | .blocks bs => !(bs.any (fun b => b.type = some "tool_result"))
        | .obj t => t ≠ some "tool_result"
        | .nullv => true
      else false
    | none => false
  | none => false

/-- Per-model configuration stored inside the settings record. -/
structure ModelConfig where
  name : String
  system_prompt : String
deriving DecidableEq, Repr

/-- The global proxy settings record. -/
structure ProxySettings where
  api_url : String
  api_key : String
  model_display : String
  model_actual : String
  system_prompt : Option String
  models : Option (List (String × ModelConfig))
deriving DecidableEq, Repr

/-- An API profile record; only the fields the handler reads. -/
structure APIProfile where
  id : String
  name : String
  api_url : String
  api_key : String
  is_active : Bool
  model_actual : Option String
deriving DecidableEq, Repr

/-- The profile model override resolution of the handler: when the key
record selects a profile and that profile exists and is active, take
its model_actual field (which may itself be absent); otherwise no
override. -/
def resolveProfileModelActual (keyData : KeyData)
    (profiles : List (String × APIProfile)) : Option String :=
  match keyData.selected_api_profile_id with
  | some pid =>
    match profiles.lookup pid with
    | some p => if p.is_active then p.model_actual else none
    | none => none
  | none => none

/-- The handler resolution of the public-facing model name. -/
def resolveModelDisplay (settings : Option ProxySettings) : String :=
  jsOr (settings.map (fun s => s.model_display)) "Claude-Opus-4.5-VIP"

/-- The handler resolution of the upstream model id: a profile-level
override takes priority over the global model_actual, which defaults
when settings are absent. -/
def resolveModelActual (profileModelActual : Option String)
    (settings : Option ProxySettings) : String :=
  jsOr profileModelActual
    (jsOr (settings.map (fun s => s.model_actual)) "claude-haiku-4-5-20251001")

/-- Outcome of the model validation stage. -/
inductive ModelCheck where
  | rejected (status : Nat) (type : String)
  | passed (newBody : RequestBody)
deriving DecidableEq, Repr

/-- The model validation and transformation stage of the handler:
reject with a 400 invalid_request_error unless the request body model
equals the resolved display name, otherwise rewrite the body model to
the resolved actual model id. -/
def validateAndTransformModel (body : RequestBody)
    (modelDisplay modelActual : String) : ModelCheck :=
  if body.model ≠ modelDisplay then .rejected 400 "invalid_request_error"
  else .passed { body with model := modelActual }

/-- The system prompt source resolution of the handler: start from the
global settings prompt; when the key record selects a model id for
which a model config exists, use that config prompt instead. -/
def resolvePrompt (settings : Option ProxySettings) (keyData : KeyData) :
    Option String :=
  let base := settings.bind (fun s => s.system_prompt)
  match keyData.selected_model with
  | some km =>
    match settings.bind (fun s => (s.models.getD []).lookup km) with
    | some cfg => some cfg.system_prompt
    | none => base
  | none => base

/-- The system prompt sanitization of the handler: a falsy (absent or
empty) prompt is skipped; otherwise trim surrounding whitespace, skip
when empty after trimming, and truncate to 10000 characters when
longer. -/
def sanitizePrompt (sp : Option String) : Option String :=
  match sp with
  | none => none
  | some s =>
    if s = "" then none
    else
      let t := jsTrim s
      if t = "" then none
      else if jsLength t > 10000 then some (jsSubstringTo t 10000)
      else some t

/-- The system prompt injection of the handler, given a sanitized
nonempty prompt: when the body already has a top-level system field or
the client path contains the substring /messages, replace the system
field wholesale; otherwise, when the body has a messages array,
replace the content of every role system entry, or prepend a new role
system entry when none exists; otherwise leave the body unchanged. -/
def injectPrompt (clientPath : String) (prompt : String)
    (body : RequestBody) : RequestBody :=
  let isAnthropic := body.system.isSome || containsSub clientPath "/messages"
  if isAnthropic then
    { body with system := some prompt }
  else
    match body.messages with
    | some msgs =>
      if msgs.any (fun m => m.role = "system") then
        { body with
          messages := some (msgs.map (fun m =>
            if m.role = "system" then ⟨"system", .str prompt⟩ else m)) }
      else
        { body with messages := some (⟨"system", .str prompt⟩ :: msgs) }
    | none => body

/-- The whole system prompt stage of the handler: resolve, sanitize,
and inject when a prompt remains. -/
def processPrompt (settings : Option ProxySettings) (keyData : KeyData)
    (clientPath : String) (body : RequestBody) : RequestBody :=
  match sanitizePrompt (resolvePrompt settings keyData) with
  | some p => injectPrompt clientPath p body
  | none => body

/-- buildUpstreamUrl from the handler: strip a trailing slash from the
base; when the base ends with /v1 and the client path starts with /v1,
remove that first occurrence of /v1 from the client path before
concatenating; otherwise concatenate the client path unchanged. -/
def buildUpstreamUrl (apiBase clientPath : String) : String :=
  let base := if jsEndsWith apiBase "/" then jsDropLast apiBase else apiBase
  if jsEndsWith base "/v1" then
    let pathWithoutV1 :=
      if jsStartsWith clientPath "/v1" then jsReplaceFirst clientPath "/v1" ""
      else clientPath
    base ++ pathWithoutV1
  else
    base ++ clientPath

/-- The URL construction rule as the specification words it: strip any
trailing slash from the base; if the base ends with the literal suffix
/v1 and the client path starts with /v1, remove that segment (its
three characters) from the front of the client path before
concatenation; otherwise concatenate the client path unmodified. -/
def buildUpstreamUrlSpec (apiBase clientPath : String) : String :=
  let base := if jsEndsWith apiBase "/" then jsDropLast apiBase else apiBase
  if jsEndsWith base "/v1" && jsStartsWith clientPath "/v1" then
    base ++ String.mk (clientPath.data.drop 3)
  else
    base ++ clientPath

/-- The response text rewrite applied to every decoded streaming chunk
by the handler: global replacement of the actual model id by the
display name, followed by the fixed literal replacements of Claude
Code, claude-3-5-haiku, Haiku, Sonnet and 4.5 Sonnet.  The actual
model id is used by the code as a regex source; for the literal model
ids the program configures (no regex metacharacters) this coincides
with literal global replacement, which is what is modelled. -/
def rewriteStreamChunk (modelActual modelDisplay chunk : String) : String :=
  let c1 := jsReplaceAll chunk modelActual modelDisplay
  let c2 := jsReplaceAll c1 "Claude Code" "Claude Opus"
  let c3 := jsReplaceAll c2 "claude-3-5-haiku" modelDisplay
  let c4 := jsReplaceAll c3 "Haiku" "Opus"
  let c5 := jsReplaceAll c4 "Sonnet" "Opus"
  jsReplaceAll c5 "4.5 Sonnet" "4.5 Opus"

/-- The response text rewrite applied to the serialized JSON text of a
buffered (non-streaming) upstream response by the handler, before the
result is parsed back; the same chain of global replacements as the
streaming path, written at its own code site. -/
def rewriteBufferedText (modelActual modelDisplay text : String) : String :=
  jsReplaceAll
    (jsReplaceAll
      (jsReplaceAll
        (jsReplaceAll
          (jsReplaceAll
            (jsReplaceAll text modelActual modelDisplay)
            "Claude Code" "Claude Opus")
          "claude-3-5-haiku" modelDisplay)
        "Haiku" "Opus")
      "Sonnet" "Opus")
    "4.5 Sonnet" "4.5 Opus"

/-- The fixed marketing phrase substitutions, as the specification
describes them: a configuration-independent trigger set, each phrase
replaced by its display-oriented alternative. -/
def fixedPhraseRewrite (modelDisplay text : String) : String :=
  let c2 := jsReplaceAll text "Claude Code" "Claude Opus"
  let c3 := jsReplaceAll c2 "claude-3-5-haiku" modelDisplay
  let c4 := jsReplaceAll c3 "Haiku" "Opus"
  let c5 := jsReplaceAll c4 "Sonnet" "Opus"
  jsReplaceAll c5 "4.5 Sonnet" "4.5 Opus"

/-- saveSettings from the Redis layer: always store the given api_url
and api_key; for model_display and model_actual fall back (through
JavaScript truthiness) to the existing value and then to the literal
defaults; keep system_prompt exactly when passed, otherwise the
existing value or the empty string; always carry the existing models
map over, defaulting to the empty map. -/
def saveSettings (apiUrl apiKey : String)
    (modelDisplay modelActual systemPrompt : Option String)
    (existing : Option ProxySettings) : ProxySettings :=
  { api_url := apiUrl
    api_key := apiKey
    model_display :=
      jsOr modelDisplay
        (jsOr (existing.map (fun e => e.model_display)) "Claude-Opus-4.5-VIP")
    model_actual :=
      jsOr modelActual
        (jsOr (existing.map (fun e => e.model_actual))
          "claude-3-5-haiku-20241022")
    system_prompt :=
      some (match systemPrompt with
        | some sp => sp
        | none => jsOr (existing.bind (fun e => e.system_prompt)) "")
    models := some ((existing.bind (fun e => e.models)).getD []) }

/-- Local state of one in-flight incrementUsage invocation, used to
study interleavings of concurrent requests against the same key.  A
thread first performs the store fetch (the getKeyData round trip),
holding the fetched record locally, and then performs the check
followed by the conditional store write.  This grants the code more
atomicity than it really has (getKeyData is itself a get possibly
followed by a set, and the final check and set are separate awaited
store operations); even under this coarser model the check-then-write
of two invocations can interleave, since nothing in the code conveys
the read version to the write. -/
inductive ThreadState where
  | start
  | gotData (d : Option KeyData)
  | done (r : IncResult)
deriving DecidableEq, Repr

/-- One atomic step of a single incrementUsage invocation against the
shared store: fetch on the first step; on the second step decide from
the locally held record and, when admitted, write back that record
with its count incremented.  A finished thread leaves the store
unchanged. -/
def stepThread (today : String) (store : Option KeyData) :
    ThreadState → Option KeyData × ThreadState
  | .start =>
    match getKeyData today store with
    | (dOpt, st') => (st', .gotData dOpt)
  | .gotData none => (store, .done ⟨false, 0, 0, some "invalid_key"⟩)
  | .gotData (some d) =>
    match d.daily_limit, d.usage_today with
    | some lim, some u =>
      if u.count ≥ lim then
        (store, .done ⟨false, u.count, lim, some "daily_limit_reached"⟩)
      else
        (some { d with usage_today := some ⟨u.date, u.count + 1⟩ },
          .done ⟨true, u.count + 1, lim, none⟩)
    | _, _ => (store, .done ⟨false, 0, 0, some "server_error"⟩)
  | .done r => (store, .done r)

/-- Run a schedule (a list of thread indices, each entry giving one
atomic step to that thread) over the shared store and a vector of
thread states. -/
def runSched (today : String) :
    List Nat → Option KeyData × List ThreadState →
    Option KeyData × List ThreadState
  | [], s => s
  | i :: rest, (store, tss) =>
    match tss[i]? with
    | some ts =>
      match stepThread today store ts with
      | (store', ts') => runSched today rest (store', tss.set i ts')
    | none => runSched today rest (store, tss)

/-- Number of admitted threads in a final thread state vector. -/
def admittedCount (tss : List ThreadState) : Nat :=
  tss.countP (fun ts =>
    match ts with
    | .done r => r.allowed
    | _ => false)

/-- Rewriting the first occurrence of a pattern that sits at the very
front of the list replaces exactly that front segment. -/
theorem jsReplaceFirstL_of_isPrefixOf (pat repl l : List Char)
    (hne : pat ≠ []) (hp : pat.isPrefixOf l = true) :
    jsReplaceFirstL pat repl l = repl ++ l.drop pat.length := by
  cases l with
  | nil =>
    cases pat with
    | nil => exact absurd rfl hne
    | cons c cs => simp [List.isPrefixOf] at hp
  | cons c cs => simp [jsReplaceFirstL, hp]

/-- Global replacement of a pattern that does not occur in the text
leaves the text unchanged. -/
theorem jsReplaceAllL_of_not_contains (pat repl : List Char) :
    ∀ l : List Char, containsSubL pat l = false → jsReplaceAllL pat repl l = l
  | [], _ => by simp [jsReplaceAllL]
  | c :: cs, h => by
    simp only [containsSubL, Bool.or_eq_false_iff] at h
    rw [jsReplaceAllL]
    simp only [h.1, Bool.false_eq_true, and_false, dite_false]
    rw [jsReplaceAllL_of_not_contains pat repl cs h.2]

/-- Claim C1: for a countable request against a key record already on
the current date, the quota stage rejects with a 429 carrying
current_usage equal to the stored count and daily_limit equal to the
stored limit and leaves the stored record unchanged when the count has
reached the limit, and otherwise admits the request after incrementing
the count by exactly one and persisting the full record. -/
theorem quota_countable_today (today : String) (d : KeyData) (lim : Nat)
    (u : Usage) (hl : d.daily_limit = some lim) (hu : d.usage_today = some u)
    (hd : u.date = today) :
    (u.count ≥ lim →
      quotaStage today true (some d) = (some ⟨429, u.count, lim⟩, some d)) ∧
    (u.count < lim →
      quotaStage today true (some d) =
        (none, some { d with usage_today := some ⟨today, u.count + 1⟩ })) := by
  obtain ⟨exp, dl, ut, stm, mcu, mact, mips, sm, spid⟩ := d
  simp only [KeyData.daily_limit] at hl
  simp only [KeyData.usage_today] at hu
  subst hl hu hd
  constructor
  · intro hge
    simp [quotaStage, incrementUsage, getKeyData, hge]
  · intro hlt
    have hnge : ¬ u.count ≥ lim := by omega
    simp [quotaStage, incrementUsage, getKeyData, hnge]

/-- Witness for the C1 theorem: a key with daily_limit 5 and count 5
on the current date is rejected with current_usage 5 and limit 5 and
no store write, and the same key at count 4 is admitted with the
persisted count raised to 5. -/
theorem quota_countable_today_witness :
    quotaStage "t" true
      (some ⟨"e", some 5, some ⟨"t", 5⟩, some 15, none, none, none, none, none⟩) =
      (some ⟨429, 5, 5⟩,
        some ⟨"e", some 5, some ⟨"t", 5⟩, some 15, none, none, none, none, none⟩) ∧
    quotaStage "t" true
      (some ⟨"e", some 5, some ⟨"t", 4⟩, some 15, none, none, none, none, none⟩) =
      (none,
        some ⟨"e", some 5, some ⟨"t", 5⟩, some 15, none, none, none, none, none⟩) :=
  ⟨(quota_countable_today "t" _ 5 ⟨"t", 5⟩ rfl rfl rfl).1 (by decide),
   (quota_countable_today "t" _ 5 ⟨"t", 4⟩ rfl rfl rfl).2 (by decide)⟩

/-- Claim C2 (refuted by the code): the check-then-increment sequence
of incrementUsage is not atomic.  Two concurrent countable requests
against a key with daily_limit 5 and count 4 (remaining quota k equal
to 1), under the interleaving in which both fetch the record before
either writes, are both admitted: the admitted count is 2, not 1, and
the final persisted count is 5, losing one update. -/
theorem concurrent_increment_not_atomic :
    runSched "t" [0, 1, 0, 1]
      (some ⟨"e", some 5, some ⟨"t", 4⟩, some 15, none, none, none, none, none⟩,
        [ThreadState.start, ThreadState.start]) =
      (some ⟨"e", some 5, some ⟨"t", 5⟩, some 15, none, none, none, none, none⟩,
        [ThreadState.done ⟨true, 5, 5, none⟩, ThreadState.done ⟨true, 5, 5, none⟩]) ∧
    admittedCount
      (runSched "t" [0, 1, 0, 1]
        (some ⟨"e", some 5, some ⟨"t", 4⟩, some 15, none, none, none, none, none⟩,
          [ThreadState.start, ThreadState.start])).2 = 2 := by
  constructor
  · rfl
  · rfl

/-- The classification rule as the specification words it: a message
content value counts unless it carries a content block whose type is
tool_result; plain string and null contents carry none. -/
def contentCountableSpec : Content → Bool
  | .str _ => true
  | .blocks bs => bs.all (fun b => b.type ≠ some "tool_result")
  | .obj t => t ≠ some "tool_result"
  | .nullv => true

/-- Claim C3: a payload with a messages list is classified countable
exactly when the last message has role user and its content carries no
tool_result block (string content always counts; array content counts
unless some block has type tool_result). -/
theorem message_classification (body : RequestBody) (msgs : List Msg)
    (hm : body.messages = some msgs) :
    hasNewUserMessage body = true ↔
      ∃ m, msgs.getLast? = some m ∧ m.role = "user" ∧
        contentCountableSpec m.content = true := by
  cases hlast : msgs.getLast? with
  | none => simp [hasNewUserMessage, hm, hlast]
  | some m =>
    by_cases hrole : m.role = "user"
    · cases hc : m.content <;>
        simp_all [hasNewUserMessage, contentCountableSpec,
          List.any_eq_true, List.all_eq_true]
    · simp [hasNewUserMessage, hm, hlast, hrole]

/-- Witness for the C3 theorem: a payload whose last message is a
plain user string is countable. -/
theorem message_classification_witness :
    hasNewUserMessage ⟨"M", some [⟨"user", Content.str "hi"⟩], none, false⟩ = true :=
  (message_classification ⟨"M", some [⟨"user", Content.str "hi"⟩], none, false⟩
      [⟨"user", Content.str "hi"⟩] rfl).mpr
    ⟨⟨"user", Content.str "hi"⟩, rfl, rfl, rfl⟩

/-- Claim C4: reading a key record whose stored usage date is not the
current date resets the count to 0 and the date to the current date,
persists the reset record, and only afterwards applies quota logic:
regardless of the prior count, a subsequent countable request against
a positive limit is admitted as the first request of the day. -/
theorem stale_date_reset (today : String) (d : KeyData) (lim : Nat)
    (u : Usage) (hl : d.daily_limit = some lim) (hu : d.usage_today = some u)
    (hd : u.date ≠ today) :
    getKeyData today (some d) =
      (some { d with usage_today := some ⟨today, 0⟩ },
        some { d with usage_today := some ⟨today, 0⟩ }) ∧
    (0 < lim →
      (incrementUsage today (some d)).1 = ⟨true, 1, lim, none⟩) := by
  obtain ⟨exp, dl, ut, stm, mcu, mact, mips, sm, spid⟩ := d
  simp only [KeyData.daily_limit] at hl
  simp only [KeyData.usage_today] at hu
  subst hl hu
  constructor
  · simp [getKeyData, hd]
  · intro hpos
    have hnge : ¬ (0 ≥ lim) := by omega
    simp [incrementUsage, getKeyData, hd, hnge]

/-- Witness for the C4 theorem: a record dated yesterday with count
999 and limit 5 is reset to count 0 dated today and persisted, and the
following countable request is admitted with usage 1. -/
theorem stale_date_reset_witness :
    getKeyData "t"
      (some ⟨"e", some 5, some ⟨"y", 999⟩, some 15, none, none, none, none, none⟩) =
      (some ⟨"e", some 5, some ⟨"t", 0⟩, some 15, none, none, none, none, none⟩,
        some ⟨"e", some 5, some ⟨"t", 0⟩, some 15, none, none, none, none, none⟩) ∧
    (incrementUsage "t"
      (some ⟨"e", some 5, some ⟨"y", 999⟩, some 15, none, none, none, none, none⟩)).1 =
      ⟨true, 1, 5, none⟩ :=
  ⟨(stale_date_reset "t" _ 5 ⟨"y", 999⟩ rfl rfl (by decide)).1,
   (stale_date_reset "t" _ 5 ⟨"y", 999⟩ rfl rfl (by decide)).2 (by omega)⟩

/-- Claim C5: a stored record lacking both daily_limit and usage_today
is migrated on first read: daily_limit becomes 50 times the first
present legacy field among max_concurrent_users, max_activations and
max_ips, or 100 when none is present; usage_today becomes the current
date with count 0; expiry is preserved; session_timeout_minutes
defaults to 15; the migrated record is both returned and persisted.
In particular the record with expiry 2026-01-01 and max_activations 3
migrates to daily_limit 150. -/
theorem legacy_migration (today : String) (d : KeyData)
    (hl : d.daily_limit = none) (hu : d.usage_today = none) :
    (∃ m : KeyData,
      getKeyData today (some d) = (some m, some m) ∧
      m.expiry = d.expiry ∧
      m.usage_today = some ⟨today, 0⟩ ∧
      m.session_timeout_minutes = some 15 ∧
      (∀ n, d.max_concurrent_users = some n → m.daily_limit = some (n * 50)) ∧
      (d.max_concurrent_users = none →
        ∀ n, d.max_activations = some n → m.daily_limit = some (n * 50)) ∧
      (d.max_concurrent_users = none → d.max_activations = none →
        ∀ n, d.max_ips = some n → m.daily_limit = some (n * 50)) ∧
      (d.max_concurrent_users = none → d.max_activations = none →
        d.max_ips = none → m.daily_limit = some 100)) ∧
    getKeyData today
      (some ⟨"2026-01-01", none, none, none, none, some 3, none, none, none⟩) =
      (some ⟨"2026-01-01", some 150, some ⟨today, 0⟩, some 15,
          none, none, none, none, none⟩,
        some ⟨"2026-01-01", some 150, some ⟨today, 0⟩, some 15,
          none, none, none, none, none⟩) := by
  obtain ⟨exp, dl, ut, stm, mcu, mact, mips, sm, spid⟩ := d
  simp only [KeyData.daily_limit] at hl
  simp only [KeyData.usage_today] at hu
  subst hl hu
  refine ⟨⟨_, rfl, rfl, rfl, rfl, ?_, ?_, ?_, ?_⟩, rfl⟩
  · intro n hn
    simp only at hn
    subst hn
    rfl
  · intro h1 n hn
    simp only at h1 hn
    subst h1 hn
    rfl
  · intro h1 h2 n hn
    simp only at h1 h2 hn
    subst h1 h2 hn
    rfl
  · intro h1 h2 h3
    simp only at h1 h2 h3
    subst h1 h2 h3
    rfl

/-- Witness for the C5 theorem: the legacy record with expiry
2026-01-01 and max_activations 3 migrates to the record with
daily_limit 150, usage_today (today, 0) and session_timeout_minutes
15, returned and persisted. -/
theorem legacy_migration_witness :
    getKeyData "t"
      (some ⟨"2026-01-01", none, none, none, none, some 3, none, none, none⟩) =
      (some ⟨"2026-01-01", some 150, some ⟨"t", 0⟩, some 15,
          none, none, none, none, none⟩,
        some ⟨"2026-01-01", some 150, some ⟨"t", 0⟩, some 15,
          none, none, none, none, none⟩) :=
  (legacy_migration "t"
    ⟨"2026-01-01", none, none, none, none, some 3, none, none, none⟩
    rfl rfl).2

/-- Claim C6: the model stage rejects with a 400 response of type
invalid_request_error unless the request model equals the resolved
display name; when it passes, the outbound model field is rewritten to
the resolved actual model id, and a nonempty model_actual of an active
selected profile takes priority over the global model_actual. -/
theorem model_gate (settings : Option ProxySettings) (body : RequestBody)
    (keyData : KeyData) (profiles : List (String × APIProfile))
    (pid : String) (p : APIProfile) (pm : String) :
    (body.model ≠ resolveModelDisplay settings →
      validateAndTransformModel body (resolveModelDisplay settings)
          (resolveModelActual (resolveProfileModelActual keyData profiles)
            settings) =
        ModelCheck.rejected 400 "invalid_request_error") ∧
    (body.model = resolveModelDisplay settings →
      validateAndTransformModel body (resolveModelDisplay settings)
          (resolveModelActual (resolveProfileModelActual keyData profiles)
            settings) =
        ModelCheck.passed { body with model := (resolveModelActual
          (resolveProfileModelActual keyData profiles) settings) }) ∧
    (keyData.selected_api_profile_id = some pid →
      profiles.lookup pid = some p →
      p.is_active = true →
      p.model_actual = some pm →
      pm ≠ "" →
      resolveModelActual (resolveProfileModelActual keyData profiles)
        settings = pm) := by
  refine ⟨?_, ?_, ?_⟩
  · intro h
    simp [validateAndTransformModel, h]
  · intro h
    simp [validateAndTransformModel, h]
  · intro h1 h2 h3 h4 h5
    simp [resolveProfileModelActual, resolveModelActual, h1, h2, h3, h4,
      jsOr, h5]

/-- Witness for the C6 theorem: with no global settings and a key
routed through an active profile whose model_actual is real-model, a
request for model bad-model is rejected with a 400
invalid_request_error, a request for the resolved display name passes
with its model rewritten to real-model, and the resolved actual model
id is the profile override real-model. -/
theorem model_gate_witness :
    validateAndTransformModel ⟨"bad-model", none, none, false⟩
        (resolveModelDisplay none)
        (resolveModelActual
          (resolveProfileModelActual
            ⟨"e", some 5, some ⟨"t", 0⟩, some 15, none, none, none, none,
              some "p1"⟩
            [("p1", ⟨"p1", "n", "u", "k", true, some "real-model"⟩)])
          none) =
      ModelCheck.rejected 400 "invalid_request_error" ∧
    validateAndTransformModel ⟨"Claude-Opus-4.5-VIP", none, none, false⟩
        (resolveModelDisplay none)
        (resolveModelActual
          (resolveProfileModelActual
            ⟨"e", some 5, some ⟨"t", 0⟩, some 15, none, none, none, none,
              some "p1"⟩
            [("p1", ⟨"p1", "n", "u", "k", true, some "real-model"⟩)])
          none) =
      ModelCheck.passed ⟨"real-model", none, none, false⟩ ∧
    resolveModelActual
        (resolveProfileModelActual
          ⟨"e", some 5, some ⟨"t", 0⟩, some 15, none, none, none, none,
            some "p1"⟩
          [("p1", ⟨"p1", "n", "u", "k", true, some "real-model"⟩)])
        none = "real-model" :=
  ⟨(model_gate none ⟨"bad-model", none, none, false⟩ _ _ "p1"
      ⟨"p1", "n", "u", "k", true, some "real-model"⟩ "real-model").1
      (by decide),
   (model_gate none ⟨"Claude-Opus-4.5-VIP", none, none, false⟩ _ _ "p1"
      ⟨"p1", "n", "u", "k", true, some "real-model"⟩ "real-model").2.1 rfl,
   (model_gate none ⟨"x", none, none, false⟩ _ _ "p1"
      ⟨"p1", "n", "u", "k", true, some "real-model"⟩ "real-model").2.2
      rfl rfl rfl rfl (by decide)⟩

/-- Rewriting the first occurrence of the segment /v1 in a client path
that starts with /v1 removes exactly its three leading characters. -/
theorem jsReplaceFirst_v1 (path : String)
    (h : jsStartsWith path "/v1" = true) :
    jsReplaceFirst path "/v1" "" = String.mk (path.data.drop 3) := by
  unfold jsStartsWith at h
  unfold jsReplaceFirst
  rw [jsReplaceFirstL_of_isPrefixOf _ _ _ (by decide) h]
  rfl

/-- Claim C7: the upstream URL construction of the handler agrees with
the rule as specified (strip a trailing slash from the base; when the
base ends with /v1 and the client path starts with /v1, drop that
segment from the client path; otherwise concatenate unmodified, the
query string riding along inside the path string), and it maps the two
specified examples to their specified outputs. -/
theorem url_construction (base path : String) :
    buildUpstreamUrl base path = buildUpstreamUrlSpec base path ∧
    buildUpstreamUrl "https://u.example/v1" "/v1/chat/completions" =
      "https://u.example/v1/chat/completions" ∧
    buildUpstreamUrl "https://u.example" "/v1/messages" =
      "https://u.example/v1/messages" := by
  refine ⟨?_, by decide, by decide⟩
  unfold buildUpstreamUrl buildUpstreamUrlSpec
  by_cases h1 :
      jsEndsWith (if jsEndsWith base "/" then jsDropLast base else base)
        "/v1" = true
  · by_cases h2 : jsStartsWith path "/v1" = true
    · simp [h1, h2, jsReplaceFirst_v1 path h2]
    · simp [h1, h2]
  · simp [h1]

/-- Claim C8: the response rewrite applied to streamed chunks and the
one applied to buffered response text are the same textual
transformation, and that transformation is the global replacement of
the actual model id by the display name followed by the fixed
marketing phrase substitutions; a text in which the actual model id
does not occur is left unchanged by the model id pass. -/
theorem response_rewrite (ma md s : String) :
    rewriteStreamChunk ma md s = rewriteBufferedText ma md s ∧
    rewriteStreamChunk ma md s = fixedPhraseRewrite md (jsReplaceAll s ma md) ∧
    (containsSub s ma = false → jsReplaceAll s ma md = s) := by
  refine ⟨rfl, rfl, ?_⟩
  intro h
  unfold containsSub at h
  unfold jsReplaceAll
  rw [jsReplaceAllL_of_not_contains _ _ _ h]

/-- Witness for the C8 theorem: the model id pass leaves a text
without an occurrence of the actual model id unchanged. -/
theorem response_rewrite_witness :
    jsReplaceAll "hello world" "claude-haiku-4-5-20251001"
      "Claude-Opus-4.5-VIP" = "hello world" :=
  (response_rewrite "claude-haiku-4-5-20251001" "Claude-Opus-4.5-VIP"
    "hello world").2.2 (by decide)

/-- Claim C9: the resolved system prompt is trimmed, injection is
skipped entirely when the trimmed prompt is empty (or no prompt
resolves at all), and the sanitized prompt is the trimmed prompt
truncated to at most 10000 characters; a sanitized prompt then
replaces the top-level system field wholesale when the body has one or
the request path contains /messages, and otherwise, when the body has
a messages list, replaces the content of existing role system entries
or prepends a new role system entry when none exists. -/
theorem prompt_injection (settings : Option ProxySettings)
    (keyData : KeyData) (path : String) (body : RequestBody) :
    (resolvePrompt settings keyData = none →
      processPrompt settings keyData path body = body) ∧
    (∀ s, resolvePrompt settings keyData = some s → jsTrim s = "" →
      processPrompt settings keyData path body = body) ∧
    (∀ s, resolvePrompt settings keyData = some s → jsTrim s ≠ "" →
      sanitizePrompt (resolvePrompt settings keyData) =
        some (jsSubstringTo (jsTrim s) 10000) ∧
      jsLength (jsSubstringTo (jsTrim s) 10000) ≤ 10000) ∧
    (∀ p, sanitizePrompt (resolvePrompt settings keyData) = some p →
      ((body.system.isSome = true ∨ containsSub path "/messages" = true) →
        processPrompt settings keyData path body =
          { body with system := some p }) ∧
      (body.system = none → containsSub path "/messages" = false →
        ∀ msgs, body.messages = some msgs →
          (msgs.any (fun m => m.role = "system") = true →
            processPrompt settings keyData path body =
              { body with messages := some (msgs.map (fun m =>
                  if m.role = "system" then ⟨"system", Content.str p⟩
                  else m)) }) ∧
          (msgs.any (fun m => m.role = "system") = false →
            processPrompt settings keyData path body =
              { body with messages := some (⟨"system", Content.str p⟩ :: msgs) }))) := by
  refine ⟨?_, ?_, ?_, ?_⟩
  · intro h
    simp [processPrompt, sanitizePrompt, h]
  · intro s hs ht
    by_cases hse : s = ""
    · simp [processPrompt, sanitizePrompt, hs, hse]
    · simp [processPrompt, sanitizePrompt, hs, hse, ht]
  · intro s hs ht
    have hse : s ≠ "" := by
      intro h
      subst h
      exact ht rfl
    constructor
    · rw [hs]
      unfold sanitizePrompt
      simp only [hse, if_false, ht, ite_false]
      by_cases hlen : jsLength (jsTrim s) > 10000
      · simp [hlen]
      · have hle : (jsTrim s).data.length ≤ 10000 := by
          unfold jsLength at hlen
          omega
        simp only [hlen, if_false]
        unfold jsSubstringTo
        rw [List.take_of_length_le hle]
    · unfold jsLength jsSubstringTo
      simp only [List.length_take]
      omega
  · intro p hp
    constructor
    · intro hor
      unfold processPrompt
      rw [hp]
      unfold injectPrompt
      rcases hor with h | h <;> simp [h]
    · intro hsys hpath msgs hmsgs
      constructor
      · intro hany
        unfold processPrompt
        rw [hp]
        unfold injectPrompt
        simp [hsys, hpath, hmsgs, hany]
      · intro hany
        unfold processPrompt
        rw [hp]
        unfold injectPrompt
        simp [hsys, hpath, hmsgs, hany]

/-- Witness for the C9 theorem: with the configured prompt being hi
surrounded by spaces, a body that already has a system field gets it
replaced wholesale by the trimmed prompt, and a body without one and
without /messages in the path gets a new role system message
prepended to its messages list. -/
theorem prompt_injection_witness :
    processPrompt (some ⟨"u", "k", "D", "A", some "  hi  ", none⟩)
        ⟨"e", some 5, some ⟨"t", 0⟩, some 15, none, none, none, none, none⟩
        "/p" ⟨"D", none, some "old", false⟩ =
      ⟨"D", none, some "hi", false⟩ ∧
    processPrompt (some ⟨"u", "k", "D", "A", some "  hi  ", none⟩)
        ⟨"e", some 5, some ⟨"t", 0⟩, some 15, none, none, none, none, none⟩
        "/v1/chat/completions"
        ⟨"D", some [⟨"user", Content.str "q"⟩], none, false⟩ =
      ⟨"D", some [⟨"system", Content.str "hi"⟩, ⟨"user", Content.str "q"⟩],
        none, false⟩ :=
  ⟨((prompt_injection (some ⟨"u", "k", "D", "A", some "  hi  ", none⟩)
        ⟨"e", some 5, some ⟨"t", 0⟩, some 15, none, none, none, none, none⟩
        "/p" ⟨"D", none, some "old", false⟩).2.2.2 "hi" (by decide)).1
      (Or.inl rfl),
   (((prompt_injection (some ⟨"u", "k", "D", "A", some "  hi  ", none⟩)
        ⟨"e", some 5, some ⟨"t", 0⟩, some 15, none, none, none, none, none⟩
        "/v1/chat/completions"
        ⟨"D", some [⟨"user", Content.str "q"⟩], none, false⟩).2.2.2 "hi"
        (by decide)).2 rfl (by decide)
      [⟨"user", Content.str "q"⟩] rfl).2 (by decide)⟩

/-- Claim C10: a settings save keeps the previously stored
model_display and model_actual when they are omitted, stores the
literal defaults when no prior value exists, keeps the prior
system_prompt (or the empty string) when system_prompt is omitted, and
always carries the stored per-model configuration map over unchanged
from the existing settings. -/
theorem settings_save_merge (apiUrl apiKey : String) (sp : Option String)
    (e : ProxySettings) (m : List (String × ModelConfig)) (s : String) :
    (e.model_display ≠ "" →
      (saveSettings apiUrl apiKey none none sp (some e)).model_display =
        e.model_display) ∧
    (e.model_actual ≠ "" →
      (saveSettings apiUrl apiKey none none sp (some e)).model_actual =
        e.model_actual) ∧
    ((saveSettings apiUrl apiKey none none sp none).model_display =
        "Claude-Opus-4.5-VIP" ∧
      (saveSettings apiUrl apiKey none none sp none).model_actual =
        "claude-3-5-haiku-20241022") ∧
    (e.system_prompt = some s → s ≠ "" →
      (saveSettings apiUrl apiKey none none none (some e)).system_prompt =
        some s) ∧
    (e.system_prompt = none →
      (saveSettings apiUrl apiKey none none none (some e)).system_prompt =
        some "") ∧
    ((saveSettings apiUrl apiKey none none none none).system_prompt =
      some "") ∧
    (∀ md ma spp, e.models = some m →
      (saveSettings apiUrl apiKey md ma spp (some e)).models = some m) ∧
    (∀ md ma spp,
      (saveSettings apiUrl apiKey md ma spp none).models = some []) := by
  refine ⟨?_, ?_, ⟨rfl, rfl⟩, ?_, ?_, rfl, ?_, fun md ma spp => rfl⟩
  · intro h
    simp [saveSettings, jsOr, h]
  · intro h
    simp [saveSettings, jsOr, h]
  · intro h hne
    simp [saveSettings, jsOr, h, hne]
  · intro h
    simp [saveSettings, jsOr, h]
  · intro md ma spp h
    simp [saveSettings, h]

/-- Witness for the C10 theorem: saving with everything omitted over
an existing record keeps its model names, prompt and model map, and
saving over no existing record stores the literal defaults. -/
theorem settings_save_merge_witness :
    (saveSettings "u2" "k2" none none none
        (some ⟨"u", "k", "D", "A", some "p",
          some [("g", ⟨"G", "gp"⟩)]⟩)).model_display = "D" ∧
    (saveSettings "u2" "k2" none none none
        (some ⟨"u", "k", "D", "A", some "p",
          some [("g", ⟨"G", "gp"⟩)]⟩)).model_actual = "A" ∧
    (saveSettings "u2" "k2" none none none
        (some ⟨"u", "k", "D", "A", some "p",
          some [("g", ⟨"G", "gp"⟩)]⟩)).system_prompt = some "p" ∧
    (saveSettings "u2" "k2" none none none
        (some ⟨"u", "k", "D", "A", some "p",
          some [("g", ⟨"G", "gp"⟩)]⟩)).models = some [("g", ⟨"G", "gp"⟩)] ∧
    (saveSettings "u2" "k2" none none none none).model_display =
      "Claude-Opus-4.5-VIP" ∧
    (saveSettings "u2" "k2" none none none none).model_actual =
      "claude-3-5-haiku-20241022" :=
  ⟨(settings_save_merge "u2" "k2" none
      ⟨"u", "k", "D", "A", some "p", some [("g", ⟨"G", "gp"⟩)]⟩
      [("g", ⟨"G", "gp"⟩)] "p").1 (by decide),
   (settings_save_merge "u2" "k2" none
      ⟨"u", "k", "D", "A", some "p", some [("g", ⟨"G", "gp"⟩)]⟩
      [("g", ⟨"G", "gp"⟩)] "p").2.1 (by decide),
   (settings_save_merge "u2" "k2" none
      ⟨"u", "k", "D", "A", some "p", some [("g", ⟨"G", "gp"⟩)]⟩
      [("g", ⟨"G", "gp"⟩)] "p").2.2.2.1 rfl (by decide),
   (settings_save_merge "u2" "k2" none
      ⟨"u", "k", "D", "A", some "p", some [("g", ⟨"G", "gp"⟩)]⟩
      [("g", ⟨"G", "gp"⟩)] "p").2.2.2.2.2.2.1 none none none rfl,
   (settings_save_merge "u2" "k2" none
      ⟨"u", "k", "D", "A", some "p", some [("g", ⟨"G", "gp"⟩)]⟩
      [("g", ⟨"G", "gp"⟩)] "p").2.2.1.1,
   (settings_save_merge "u2" "k2" none
      ⟨"u", "k", "D", "A", some "p", some [("g", ⟨"G", "gp"⟩)]⟩
      [("g", ⟨"G", "gp"⟩)] "p").2.2.1.2⟩



